import Mathlib

/-
  Verification of `catfacts_analyzer.py` against its specification.

  The program is embedded shallowly: Python lists become `List`, dicts with a
  fixed shape become structures, Python exceptions become `Except`, and the
  console / filesystem effects of `main` become an explicit event trace.
  Python integers are `Int`; the floating-point mean is modelled exactly as a
  rational number.
-/

namespace CatFacts

/-- One record of the dataset: the objects under the `facts` key of the JSON
    file, each with string field `fact` and integer field `length`
    (`src/catfacts_analyzer.py`, module docstring and `load_facts`). -/
structure Fact where
  fact : String
  length : Int
deriving Repr, DecidableEq

/-- The dictionary returned by `compute_statistics` (keys `count`,
    `min_length`, `max_length`, `avg_length`). The Python float average is
    modelled as an exact rational. -/
structure Stats where
  count : Nat
  min_length : Int
  max_length : Int
  avg_length : ℚ
deriving Repr, DecidableEq

/-- Python builtin `min` on a list: raises `ValueError` on an empty
    sequence, otherwise folds `min` over the elements. -/
def pymin : List Int → Except String Int
  | [] => Except.error "min() arg is an empty sequence"
  | x :: xs => Except.ok (xs.foldl min x)

/-- Python builtin `max` on a list: raises `ValueError` on an empty
    sequence, otherwise folds `max` over the elements. -/
def pymax : List Int → Except String Int
  | [] => Except.error "max() arg is an empty sequence"
  | x :: xs => Except.ok (xs.foldl max x)

/-- Embeds `statistics.mean`: raises `StatisticsError` on an empty sequence,
    otherwise the exact arithmetic mean (sum divided by length). -/
def pymean : List Int → Except String ℚ
  | [] => Except.error "mean requires at least one data point"
  | x :: xs => Except.ok (((x :: xs).sum : ℚ) / (x :: xs).length)

/-- The list comprehension extracting the length field of every fact,
    shared verbatim by `compute_statistics` (src 59) and
    `plot_length_histogram` (src 75). -/
def lengthsOf (facts : List Fact) : List Int :=
  facts.map fun f => f.length

/-- Embeds `compute_statistics(facts)` (src lines 50-65): extracts the `length`
    field of every fact and builds the result dict.  The dict literal
    evaluates `min` before `max` before `mean`, so on an empty list the
    `min` call is the one that raises. -/
def compute_statistics (facts : List Fact) : Except String Stats := do
  let lengths := lengthsOf facts
  let mn ← pymin lengths
  let mx ← pymax lengths
  let avg ← pymean lengths
  return { count := lengths.length, min_length := mn, max_length := mx,
           avg_length := avg }

/-- Embeds `dict.get(key, default)` on the parsed top-level JSON object, modelled as
    lookup in an association list (JSON object keys are unique; only the
    `facts` binding matters to the program). -/
def dictGet (data : List (String × List Fact)) (key : String)
    (default : List Fact) : List Fact :=
  match data.lookup key with
  | some v => v
  | none => default

/-- Embeds `load_facts` (src lines 36-47) after `json.load` succeeded: returns
    `data.get("facts", [])`.  (The file reading and parse failure simply
    propagate as exceptions; the claims are about the parsed object.) -/
def load_facts (data : List (String × List Fact)) : List Fact :=
  dictGet data "facts" []

/-- One console/filesystem effect of the program.  `print s` is one call of
    Python's `print` with argument `s` (the trailing newline is implicit);
    `ensureParentDir p` is `os.makedirs(os.path.dirname(p), exist_ok=True)`;
    `saveImage p` is `plt.savefig(p)`; `closeFigure` is `plt.close()`. -/
inductive Event where
  | print (line : String)
  | ensureParentDir (path : String)
  | saveImage (path : String)
  | closeFigure
deriving Repr, DecidableEq

/-- The line printed for one fact by the loop at src lines 102-103: the
    1-based index, a dot and a space, the fact text, then the length in a
    parenthesised Length annotation. -/
def factLine (idx : Nat) (f : Fact) : String :=
  s!"{idx}. {f.fact} (Length: {f.length})"

/-- Embeds `enumerate(facts, start=i)` over the remaining facts, rendered to lines. -/
def numberFrom (i : Nat) : List Fact → List String
  | [] => []
  | f :: fs => factLine i f :: numberFrom (i + 1) fs

/-- The fact-listing lines of the report:
    `for idx, fact in enumerate(facts[:5], start=1)` (src lines 102-103). -/
def factLines (facts : List Fact) : List String :=
  numberFrom 1 (facts.take 5)

/-- Embeds the 2-decimal fixed-point formatting of the mean: round to a whole number
    of hundredths and print with two decimal digits.  (Python rounds the
    underlying binary float to nearest, ties to even; away from exact
    hundredth-ties the two agree, and `44/3` is not a tie.) -/
def fmtCents (cents : Int) : String :=
  let sign : String := if cents < 0 then "-" else ""
  let a : Nat := cents.natAbs
  let whole : Nat := a / 100
  let fracPart : Nat := a % 100
  let fracStr : String := if fracPart < 10 then s!"0{fracPart}" else s!"{fracPart}"
  s!"{sign}{whole}.{fracStr}"

def fmt2 (q : ℚ) : String :=
  fmtCents (Int.floor (q * 100 + 1 / 2))

/-- The ten-bin histogram edges `plt.hist(lengths, bins=10)` computes over
    the data range: matplotlib with an integer `bins` argument partitions
    `[min(data), max(data)]` into that many equal-width intervals, i.e. the
    edges are `lo + j*(hi-lo)/bins` for `j = 0..bins` (library behaviour,
    as the spec describes: bin edges computed from the data range). -/
def histEdges (lo hi : ℚ) (bins : Nat) : List ℚ :=
  (List.range (bins + 1)).map fun (j : Nat) => lo + (j : ℚ) * (hi - lo) / (bins : ℚ)

/-- The chart assembled by src lines 76-80: data, bin edges, title and axis
    labels. -/
structure Chart where
  data : List Int
  binEdges : List ℚ
  title : String
  xlabel : String
  ylabel : String
deriving Repr, DecidableEq

/-- The figure built by the plt calls of src lines 76-80: figure, hist with
    an integer bins argument of 10, title, xlabel, ylabel. -/
def chartOf (lengths : List Int) : Chart :=
  { data := lengths
    binEdges :=
      match pymin lengths, pymax lengths with
      | Except.ok mn, Except.ok mx => histEdges (mn : ℚ) (mx : ℚ) 10
      | _, _ => []
    title := "Distribution of Cat Fact Lengths"
    xlabel := "Fact Length (characters)"
    ylabel := "Frequency" }

/-- Result of one call of `plot_length_histogram`: the chart it built, the
    effects it performed, whether `plt.close()` ran, and whether it returned
    normally or propagated an exception. -/
structure PlotResult where
  chart : Chart
  events : List Event
  figureClosed : Bool
  outcome : Except String Unit
deriving Repr

/-- Embeds `plot_length_histogram(facts, output_path)` (src lines 68-84).
    `saveFails` says whether the `plt.savefig(output_path)` call raises
    (e.g. unwritable path).  The source runs, in order: build the chart,
    `os.makedirs(..., exist_ok=True)`, `plt.savefig(...)`, `plt.close()` —
    with no `try/finally`, so when `savefig` raises, the exception
    propagates before the `plt.close()` line is reached. -/
def plot_length_histogram (facts : List Fact) (output_path : String)
    (saveFails : Bool) : PlotResult :=
  let lengths := lengthsOf facts
  let chart := chartOf lengths
  if saveFails then
    { chart
      events := [Event.ensureParentDir output_path]
      figureClosed := false
      outcome := Except.error "savefig failed" }
  else
    { chart
      events := [Event.ensureParentDir output_path,
                 Event.saveImage output_path, Event.closeFigure]
      figureClosed := true
      outcome := Except.ok () }

/-- The image path as resolved by `main` (src lines 89-92), relative to the
    script directory. -/
def image_path : String := "output/cat_fact_length_hist.png"

/-- The diagnostic printed by `main` when no facts were loaded (src 97). -/
def diagnosticMessage : String := "No facts were loaded. Please check the data file."

/-- The header printed before the fact listing (src 101). -/
def headerLine : String := "Cat Facts:\n-----------"

/-- The four statistics lines of the report (src lines 107-111). -/
def statLines (s : Stats) : List String :=
  ["\nStatistics:",
   s!"Total facts: {s.count}",
   s!"Shortest fact length: {s.min_length}",
   s!"Longest fact length: {s.max_length}",
   "Average fact length: " ++ fmt2 s.avg_length]

/-- The full report-and-plot event trace of a successful run of `main` on a
    non-empty fact list whose statistics came out as `s` (src lines
    101-115). -/
def reportAndPlotTrace (facts : List Fact) (s : Stats) : List Event :=
  Event.print headerLine :: (factLines facts).map Event.print
    ++ (statLines s).map Event.print
    ++ (plot_length_histogram facts image_path false).events
    ++ [Event.print ("\nHistogram saved to " ++ image_path)]

/-- Embeds `main()` (src lines 87-115), given the loaded fact list: the trace of
    effects after loading, paired with the process exit code.  Python's
    `return` from `main` with no unhandled exception exits with code 0; an
    exception escaping `main` exits non-zero (modelled as 1).  The
    `Except.error` branch of `compute_statistics` is unreachable here
    because it is only entered with a non-empty list. -/
def main (facts : List Fact) : List Event × Nat :=
  if facts.isEmpty then
    ([Event.print diagnosticMessage], 0)
  else
    match compute_statistics facts with
    | Except.error _ =>
        (Event.print headerLine :: (factLines facts).map Event.print, 1)
    | Except.ok s => (reportAndPlotTrace facts s, 0)

/-! ## Helper lemmas -/

/-- The fold computing Python `min` is a lower bound of the folded list. -/
lemma foldl_min_le (xs : List Int) (x : Int) :
    ∀ y ∈ x :: xs, xs.foldl min x ≤ y := by
  induction xs generalizing x with
  | nil =>
      intro y hy
      simp only [List.mem_singleton] at hy
      simp [hy]
  | cons a as ih =>
      intro y hy
      have hinit : as.foldl min (min x a) ≤ min x a :=
        ih (min x a) (min x a) (List.mem_cons_self _ _)
      simp only [List.foldl_cons]
      rcases List.mem_cons.mp hy with rfl | h
      · exact le_trans hinit (min_le_left _ _)
      · rcases List.mem_cons.mp h with rfl | h2
        · exact le_trans hinit (min_le_right _ _)
        · exact ih (min x a) y (List.mem_cons_of_mem _ h2)

/-- The fold computing Python `min` lands in the folded list. -/
lemma foldl_min_mem (xs : List Int) (x : Int) :
    xs.foldl min x ∈ x :: xs := by
  induction xs generalizing x with
  | nil => simp
  | cons a as ih =>
      simp only [List.foldl_cons]
      rcases List.mem_cons.mp (ih (min x a)) with h | h
      · rw [h]
        rcases le_total x a with hle | hle
        · simp [min_eq_left hle]
        · simp [min_eq_right hle]
      · exact List.mem_cons_of_mem _ (List.mem_cons_of_mem _ h)

/-- The fold computing Python `max` is an upper bound of the folded list. -/
lemma le_foldl_max (xs : List Int) (x : Int) :
    ∀ y ∈ x :: xs, y ≤ xs.foldl max x := by
  induction xs generalizing x with
  | nil =>
      intro y hy
      simp only [List.mem_singleton] at hy
      simp [hy]
  | cons a as ih =>
      intro y hy
      have hinit : max x a ≤ as.foldl max (max x a) :=
        ih (max x a) (max x a) (List.mem_cons_self _ _)
      simp only [List.foldl_cons]
      rcases List.mem_cons.mp hy with rfl | h
      · exact le_trans (le_max_left _ _) hinit
      · rcases List.mem_cons.mp h with rfl | h2
        · exact le_trans (le_max_right _ _) hinit
        · exact ih (max x a) y (List.mem_cons_of_mem _ h2)

/-- The fold computing Python `max` lands in the folded list. -/
lemma foldl_max_mem (xs : List Int) (x : Int) :
    xs.foldl max x ∈ x :: xs := by
  induction xs generalizing x with
  | nil => simp
  | cons a as ih =>
      simp only [List.foldl_cons]
      rcases List.mem_cons.mp (ih (max x a)) with h | h
      · rw [h]
        rcases le_total x a with hle | hle
        · simp [max_eq_right hle]
        · simp [max_eq_left hle]
      · exact List.mem_cons_of_mem _ (List.mem_cons_of_mem _ h)

/-- A uniform lower bound on the elements bounds the sum from below. -/
lemma length_mul_le_sum (l : List Int) (m : Int) (h : ∀ y ∈ l, m ≤ y) :
    (l.length : Int) * m ≤ l.sum := by
  induction l with
  | nil => simp
  | cons a as ih =>
      have h1 : m ≤ a := h a (List.mem_cons_self _ _)
      have h2 := ih fun y hy => h y (List.mem_cons_of_mem _ hy)
      have hexp : (((a :: as).length : Int)) * m = (as.length : Int) * m + m := by
        simp only [List.length_cons]
        push_cast
        ring
      rw [hexp, List.sum_cons]
      linarith

/-- A uniform upper bound on the elements bounds the sum from above. -/
lemma sum_le_length_mul (l : List Int) (M : Int) (h : ∀ y ∈ l, y ≤ M) :
    l.sum ≤ (l.length : Int) * M := by
  induction l with
  | nil => simp
  | cons a as ih =>
      have h1 : a ≤ M := h a (List.mem_cons_self _ _)
      have h2 := ih fun y hy => h y (List.mem_cons_of_mem _ hy)
      have hexp : (((a :: as).length : Int)) * M = (as.length : Int) * M + M := by
        simp only [List.length_cons]
        push_cast
        ring
      rw [hexp, List.sum_cons]
      linarith

/-- On a non-empty list `compute_statistics` succeeds, with the record its
    source lines produce. -/
lemma compute_statistics_cons (f : Fact) (fs : List Fact) :
    compute_statistics (f :: fs) = Except.ok
      { count := (lengthsOf (f :: fs)).length
        min_length := (lengthsOf fs).foldl min f.length
        max_length := (lengthsOf fs).foldl max f.length
        avg_length := ((lengthsOf (f :: fs)).sum : ℚ) /
          ((lengthsOf (f :: fs)).length : ℚ) } := rfl

/-- The numbered report lines are in bijection with the listed facts. -/
lemma numberFrom_length (i : Nat) (l : List Fact) :
    (numberFrom i l).length = l.length := by
  induction l generalizing i with
  | nil => rfl
  | cons f fs ih => simp [numberFrom, ih]

/-- The j-th numbered report line renders the j-th listed fact with index
    `i + j`. -/
lemma numberFrom_get (l : List Fact) (i j : Nat)
    (h1 : j < (numberFrom i l).length) (h2 : j < l.length) :
    (numberFrom i l).get ⟨j, h1⟩ = factLine (i + j) (l.get ⟨j, h2⟩) := by
  induction l generalizing i j with
  | nil => exact absurd h2 (by simp)
  | cons f fs ih =>
      cases j with
      | zero => simp [numberFrom]
      | succ j' =>
          have h1' : j' < (numberFrom (i + 1) fs).length := by
            simpa [numberFrom] using h1
          have h2' : j' < fs.length := by simpa using h2
          have heq : i + 1 + j' = i + (j' + 1) := by omega
          simpa [numberFrom, heq] using ih (i + 1) j' h1' h2'

/-- The scenario input of the specification (section 8). -/
def demoFacts : List Fact :=
  [⟨"Cats sleep a lot.", 17⟩, ⟨"Cats have claws.", 17⟩, ⟨"Cats purr.", 10⟩]

/-! ## Claim theorems -/

/-- C1.  For every non-empty fact list, `compute_statistics` returns a
    dictionary whose `count` is the list length, whose `min_length` and
    `max_length` are the minimum resp. maximum of the facts' length values,
    whose `avg_length` is the arithmetic mean of those values, and the mean
    lies between the minimum and the maximum. -/
theorem compute_statistics_stats_spec (facts : List Fact) (hne : facts ≠ []) :
    ∃ s : Stats, compute_statistics facts = Except.ok s ∧
      s.count = facts.length ∧
      s.min_length ∈ lengthsOf facts ∧
      (∀ y ∈ lengthsOf facts, s.min_length ≤ y) ∧
      s.max_length ∈ lengthsOf facts ∧
      (∀ y ∈ lengthsOf facts, y ≤ s.max_length) ∧
      s.avg_length = ((lengthsOf facts).sum : ℚ) / ((lengthsOf facts).length : ℚ) ∧
      (s.min_length : ℚ) ≤ s.avg_length ∧ s.avg_length ≤ (s.max_length : ℚ) := by
  obtain ⟨f, fs, rfl⟩ : ∃ f fs, facts = f :: fs := by
    cases facts with
    | nil => exact absurd rfl hne
    | cons f fs => exact ⟨f, fs, rfl⟩
  have hL : lengthsOf (f :: fs) = f.length :: lengthsOf fs := rfl
  have hmem_min : (lengthsOf fs).foldl min f.length ∈ lengthsOf (f :: fs) := by
    rw [hL]; exact foldl_min_mem _ _
  have hlb : ∀ y ∈ lengthsOf (f :: fs), (lengthsOf fs).foldl min f.length ≤ y := by
    rw [hL]; exact foldl_min_le _ _
  have hmem_max : (lengthsOf fs).foldl max f.length ∈ lengthsOf (f :: fs) := by
    rw [hL]; exact foldl_max_mem _ _
  have hub : ∀ y ∈ lengthsOf (f :: fs), y ≤ (lengthsOf fs).foldl max f.length := by
    rw [hL]; exact le_foldl_max _ _
  have hlen : 0 < (lengthsOf (f :: fs)).length := by rw [hL]; simp
  have hlenQ : (0 : ℚ) < ((lengthsOf (f :: fs)).length : ℚ) := by exact_mod_cast hlen
  have hsum_lb := length_mul_le_sum _ _ hlb
  have hsum_ub := sum_le_length_mul _ _ hub
  have havg_lb : (((lengthsOf fs).foldl min f.length : Int) : ℚ) ≤
      ((lengthsOf (f :: fs)).sum : ℚ) / ((lengthsOf (f :: fs)).length : ℚ) := by
    rw [le_div_iff₀ hlenQ]
    have hcast : ((lengthsOf (f :: fs)).length : ℚ) *
        (((lengthsOf fs).foldl min f.length : Int) : ℚ) ≤
        ((lengthsOf (f :: fs)).sum : ℚ) := by exact_mod_cast hsum_lb
    linarith
  have havg_ub : ((lengthsOf (f :: fs)).sum : ℚ) / ((lengthsOf (f :: fs)).length : ℚ) ≤
      (((lengthsOf fs).foldl max f.length : Int) : ℚ) := by
    rw [div_le_iff₀ hlenQ]
    have hcast : ((lengthsOf (f :: fs)).sum : ℚ) ≤
        ((lengthsOf (f :: fs)).length : ℚ) *
        (((lengthsOf fs).foldl max f.length : Int) : ℚ) := by exact_mod_cast hsum_ub
    linarith
  exact ⟨_, compute_statistics_cons f fs, by simp [lengthsOf],
    hmem_min, hlb, hmem_max, hub, rfl, havg_lb, havg_ub⟩

/-- Witness for C1 at the three-fact scenario list. -/
theorem compute_statistics_stats_spec_witness :
    ∃ s : Stats, compute_statistics demoFacts = Except.ok s ∧
      s.count = demoFacts.length ∧
      (s.min_length : ℚ) ≤ s.avg_length ∧ s.avg_length ≤ (s.max_length : ℚ) := by
  obtain ⟨s, h1, h2, -, -, -, -, -, h3, h4⟩ :=
    compute_statistics_stats_spec demoFacts (by simp [demoFacts])
  exact ⟨s, h1, h2, h3, h4⟩

/-- C2.  Given an empty loaded sequence, `main` prints only the diagnostic
    message and exits with code 0, writing no image; on a non-empty sequence
    the full report-and-plot trace runs (statistics succeed and the image is
    written). -/
theorem main_empty_guard_spec (facts : List Fact) :
    (facts = [] →
      main facts = ([Event.print diagnosticMessage], 0) ∧
      ∀ p, Event.saveImage p ∉ (main facts).1) ∧
    (facts ≠ [] →
      ∃ s, compute_statistics facts = Except.ok s ∧
        main facts = (reportAndPlotTrace facts s, 0) ∧
        Event.saveImage image_path ∈ (main facts).1) := by
  constructor
  · rintro rfl
    refine ⟨rfl, fun p hp => ?_⟩
    simp [main] at hp
  · intro hne
    obtain ⟨f, fs, rfl⟩ : ∃ f fs, facts = f :: fs := by
      cases facts with
      | nil => exact absurd rfl hne
      | cons f fs => exact ⟨f, fs, rfl⟩
    refine ⟨_, compute_statistics_cons f fs, rfl, ?_⟩
    simp [main, compute_statistics_cons, reportAndPlotTrace, plot_length_histogram]

/-- Witness for C2: the empty input takes the guard, the scenario input
    takes the full path. -/
theorem main_empty_guard_spec_witness :
    main ([] : List Fact) = ([Event.print diagnosticMessage], 0) ∧
    ∃ s, compute_statistics demoFacts = Except.ok s ∧
      main demoFacts = (reportAndPlotTrace demoFacts s, 0) ∧
      Event.saveImage image_path ∈ (main demoFacts).1 :=
  ⟨((main_empty_guard_spec []).1 rfl).1,
   (main_empty_guard_spec demoFacts).2 (by simp [demoFacts])⟩

/-- C3.  The Reporter prints exactly `min N 5` fact lines, 1-indexed in
    sequence order, the j-th line being the formatted line of the j-th
    fact. -/
theorem reporter_first_five_spec (facts : List Fact) :
    (factLines facts).length = min facts.length 5 ∧
    ∀ (j : Nat) (h1 : j < (factLines facts).length) (h2 : j < facts.length),
      (factLines facts).get ⟨j, h1⟩ = factLine (j + 1) (facts.get ⟨j, h2⟩) := by
  constructor
  · simp [factLines, numberFrom_length, Nat.min_comm]
  · intro j h1 h2
    have h1' : j < (facts.take 5).length := by
      simpa [factLines, numberFrom_length] using h1
    have hget : (facts.take 5).get ⟨j, h1'⟩ = facts.get ⟨j, h2⟩ := by
      simp [List.get_take]
    calc (factLines facts).get ⟨j, h1⟩
        = factLine (1 + j) ((facts.take 5).get ⟨j, h1'⟩) :=
          numberFrom_get (facts.take 5) 1 j (by simpa [factLines] using h1) h1'
      _ = factLine (j + 1) (facts.get ⟨j, h2⟩) := by rw [hget, Nat.add_comm]

/-- Witness for C3 at the three-fact scenario list, third line. -/
theorem reporter_first_five_spec_witness :
    (factLines demoFacts).length = min demoFacts.length 5 ∧
    (factLines demoFacts).get ⟨2, by decide⟩ =
      factLine 3 (demoFacts.get ⟨2, by decide⟩) := by
  exact ⟨(reporter_first_five_spec demoFacts).1,
    (reporter_first_five_spec demoFacts).2 2 (by decide) (by decide)⟩

/-- C4.  When the parsed top-level object has no `facts` key, `load_facts`
    returns the empty list; when it has one, it returns exactly the stored
    sequence. -/
theorem load_facts_key_spec (data : List (String × List Fact)) :
    (data.lookup "facts" = none → load_facts data = []) ∧
    ∀ v, data.lookup "facts" = some v → load_facts data = v := by
  constructor
  · intro h
    simp [load_facts, dictGet, h]
  · intro v h
    simp [load_facts, dictGet, h]

/-- Witness for C4: one object without the key, one with it. -/
theorem load_facts_key_spec_witness :
    load_facts [("other", [Fact.mk "x" 1])] = [] ∧
    load_facts [("facts", demoFacts)] = demoFacts :=
  ⟨(load_facts_key_spec _).1 rfl, (load_facts_key_spec _).2 demoFacts rfl⟩

/-- C5, counterexample.  It is not true that every exit path of
    `plot_length_histogram` closes the figure: when saving raises, the
    exception propagates with the figure still open (the close call follows
    the save with no finally block). -/
theorem plot_close_counterexample :
    ¬ (∀ (facts : List Fact) (output_path : String) (saveFails : Bool),
        (plot_length_histogram facts output_path saveFails).figureClosed = true) := by
  intro h
  have h1 : (false : Bool) = true := h demoFacts image_path true
  exact Bool.noConfusion h1

/-- C5, amended.  The figure is closed exactly on the successful exit path:
    a run whose save succeeds returns normally with the figure closed, while
    a run whose save raises propagates the exception without closing it. -/
theorem plot_close_paths_spec (facts : List Fact) (output_path : String) :
    ((plot_length_histogram facts output_path false).figureClosed = true ∧
     (plot_length_histogram facts output_path false).outcome = Except.ok ()) ∧
    ((plot_length_histogram facts output_path true).figureClosed = false ∧
     (plot_length_histogram facts output_path true).outcome =
       Except.error "savefig failed") :=
  ⟨⟨rfl, rfl⟩, ⟨rfl, rfl⟩⟩

/-- The ten-bin edge list written out. -/
lemma histEdges_ten (lo hi : ℚ) :
    histEdges lo hi 10 =
      [lo, lo + (hi - lo) / 10, lo + 2 * (hi - lo) / 10, lo + 3 * (hi - lo) / 10,
       lo + 4 * (hi - lo) / 10, lo + 5 * (hi - lo) / 10, lo + 6 * (hi - lo) / 10,
       lo + 7 * (hi - lo) / 10, lo + 8 * (hi - lo) / 10, lo + 9 * (hi - lo) / 10,
       hi] := by
  simp only [histEdges]
  rw [show List.range (10 + 1) = [0, 1, 2, 3, 4, 5, 6, 7, 8, 9, 10] from by decide]
  simp only [List.map_cons, List.map_nil, List.cons.injEq, and_true]
  refine ⟨?_, ?_, ?_, ?_, ?_, ?_, ?_, ?_, ?_, ?_, ?_⟩ <;> push_cast <;> ring

/-- C6.  On every non-empty fact list, the Plotter's chart carries the
    extracted lengths, exactly 10 equal-width bins (11 edges, consecutive
    differences all one tenth of the observed range) spanning the observed
    minimum to the observed maximum, and the fixed title and axis labels. -/
theorem plot_histogram_bins_spec (facts : List Fact) (output_path : String)
    (saveFails : Bool) (hne : facts ≠ []) :
    ∃ mn mx : Int,
      pymin (lengthsOf facts) = Except.ok mn ∧
      pymax (lengthsOf facts) = Except.ok mx ∧
      (plot_length_histogram facts output_path saveFails).chart =
        { data := lengthsOf facts
          binEdges := histEdges (mn : ℚ) (mx : ℚ) 10
          title := "Distribution of Cat Fact Lengths"
          xlabel := "Fact Length (characters)"
          ylabel := "Frequency" } ∧
      (histEdges (mn : ℚ) (mx : ℚ) 10).length = 11 ∧
      (histEdges (mn : ℚ) (mx : ℚ) 10).head? = some (mn : ℚ) ∧
      (histEdges (mn : ℚ) (mx : ℚ) 10).getLast? = some (mx : ℚ) ∧
      List.Chain' (fun a b => b - a = ((mx : ℚ) - (mn : ℚ)) / 10)
        (histEdges (mn : ℚ) (mx : ℚ) 10) := by
  obtain ⟨f, fs, rfl⟩ : ∃ f fs, facts = f :: fs := by
    cases facts with
    | nil => exact absurd rfl hne
    | cons f fs => exact ⟨f, fs, rfl⟩
  refine ⟨(lengthsOf fs).foldl min f.length, (lengthsOf fs).foldl max f.length,
    rfl, rfl, ?_, ?_, ?_, ?_, ?_⟩
  · cases saveFails <;> rfl
  · rw [histEdges_ten]
    rfl
  · rw [histEdges_ten]
    rfl
  · rw [histEdges_ten]
    rfl
  · rw [histEdges_ten]
    simp only [List.chain'_cons, List.chain'_singleton, and_true]
    refine ⟨?_, ?_, ?_, ?_, ?_, ?_, ?_, ?_, ?_, ?_⟩ <;> ring

/-- Witness for C6 at the scenario list. -/
theorem plot_histogram_bins_spec_witness :
    ∃ mn mx : Int,
      pymin (lengthsOf demoFacts) = Except.ok mn ∧
      pymax (lengthsOf demoFacts) = Except.ok mx := by
  obtain ⟨mn, mx, h1, h2, -⟩ :=
    plot_histogram_bins_spec demoFacts image_path false (by simp [demoFacts])
  exact ⟨mn, mx, h1, h2⟩

/-- C7.  On the three-fact scenario input, the statistics are count 3,
    minimum 10, maximum 17, mean 44/3; the mean prints as 14.67 under the
    2-decimal formatting while the stored value is the exact mean, not the
    rounded one. -/
theorem scenario_concrete_spec :
    compute_statistics demoFacts =
      Except.ok { count := 3, min_length := 10, max_length := 17,
                  avg_length := 44 / 3 } ∧
    fmt2 (44 / 3 : ℚ) = "14.67" ∧
    (44 / 3 : ℚ) ≠ 1467 / 100 := by
  refine ⟨rfl, ?_, by norm_num⟩
  rw [fmt2, show ((44 : ℚ) / 3 * 100 + 1 / 2) = 8803 / 6 by norm_num,
      show Int.floor ((8803 : ℚ) / 6) = 1467 by norm_num]
  rfl

/-- C8.  On a single-fact list the statistics collapse: count 1 and
    minimum, maximum and mean all equal to that fact's length. -/
theorem single_fact_stats_spec (f : Fact) :
    compute_statistics [f] =
      Except.ok { count := 1, min_length := f.length, max_length := f.length,
                  avg_length := (f.length : ℚ) } := by
  rw [compute_statistics_cons f []]
  simp only [lengthsOf, List.map_cons, List.map_nil, List.foldl_nil,
    List.sum_cons, List.sum_nil, List.length_cons, List.length_nil,
    Except.ok.injEq, Stats.mk.injEq]
  refine ⟨trivial, trivial, trivial, ?_⟩
  push_cast
  norm_num

/-- C9.  Called directly on the empty list, `compute_statistics` does not
    return a record: the minimum of an empty sequence raises, so the
    caller's non-emptiness guard is genuinely required. -/
theorem compute_statistics_empty_raises :
    compute_statistics ([] : List Fact) =
      Except.error "min() arg is an empty sequence" := rfl

/-- C10.  `compute_statistics` reads nothing but the length field: any two
    fact lists with the same extracted length values produce the same
    result, so equal inputs give equal outputs and the fact texts are
    irrelevant (the function is pure; the embedding mutates nothing). -/
theorem compute_statistics_reads_only_length (facts1 facts2 : List Fact)
    (h : lengthsOf facts1 = lengthsOf facts2) :
    compute_statistics facts1 = compute_statistics facts2 := by
  unfold compute_statistics
  rw [h]

/-- Witness for C10: same lengths under different texts. -/
theorem compute_statistics_reads_only_length_witness :
    compute_statistics [Fact.mk "Cats purr." 10] =
      compute_statistics [Fact.mk "Dogs bark." 10] :=
  compute_statistics_reads_only_length _ _ rfl

end CatFacts
